import Mathlib

/-!
Verification development for the LLVM generation context and opcode translators
of the `compiler-llvm-context` repository.

The Rust sources are shallowly embedded: the in-progress LLVM module is a state
(`Context`) holding basic blocks (lists of deep-embedded `Instruction`s), the
builder cursor, the current function record and the dependency-manager handle.
Builder arithmetic (`build_int_add`, `build_int_compare`, `build_left_shift`,
`int_to_ptr`, constants) constructs pure `Value` trees, like LLVM constant/SSA
values; memory-touching and control-flow builders append `Instruction`s to the
block under the cursor.  Besides the per-block lists, the context keeps a global
`trace` of every appended instruction in emission order, which the theorems use
to speak about what a translator emitted and in which order.

Constants of the external `compiler_common` crate are modelled as Lean
constants.  The widths and offsets that the spec fixes (word size 32 bytes,
32-bit length mask, 4-byte error codes) use the spec values; digests of fixed
protocol strings (`keccak256` of the deployed-contracts-counter name, of error
messages) are stand-in numerals, since the hashing crate is external and no
claim depends on the digits.
-/

namespace LLVMContext

/-- Size of a machine word in bytes (`compiler_common::SIZE_FIELD`). -/
def SIZE_FIELD : Nat := 32

/-- Size of a 32-bit value in bytes (`compiler_common::SIZE_X32`). -/
def SIZE_X32 : Nat := 4

/-- Bits per byte (`compiler_common::BITLENGTH_BYTE`). -/
def BITLENGTH_BYTE : Nat := 8

/-- Bit width of a 32-bit value (`compiler_common::BITLENGTH_X32`). -/
def BITLENGTH_X32 : Nat := 32

/-- Bit width of the machine word (`compiler_common::BITLENGTH_FIELD`). -/
def BITLENGTH_FIELD : Nat := 256

/-- Word offset of the header word in a foreign memory region
(`compiler_common::ABI_MEMORY_OFFSET_HEADER`; exact value lives in the external
crate, no claim depends on it). -/
def ABI_MEMORY_OFFSET_HEADER : Nat := 0

/-- Word offset of the payload data in a foreign memory region
(`compiler_common::ABI_MEMORY_OFFSET_DATA`). -/
def ABI_MEMORY_OFFSET_DATA : Nat := 1

/-- Word offset of the long-return flag word within Heap memory
(`compiler_common::ABI_MEMORY_OFFSET_LONG_RETURN`). -/
def ABI_MEMORY_OFFSET_LONG_RETURN : Nat := 2

/-- Reserved name of the contract entry function
(`compiler_common::LLVM_FUNCTION_ENTRY`; the exact spelling lives in the
external crate, the claims only need the three reserved names). -/
def LLVM_FUNCTION_ENTRY : String := "main"

/-- Reserved name of the constructor function
(`compiler_common::LLVM_FUNCTION_CONSTRUCTOR`). -/
def LLVM_FUNCTION_CONSTRUCTOR : String := "constructor"

/-- Reserved name of the selector function
(`compiler_common::LLVM_FUNCTION_SELECTOR`). -/
def LLVM_FUNCTION_SELECTOR : String := "selector"

/-- Address of the identity precompile
(`compiler_common::ABI_ADDRESS_IDENTITY`; stand-in value). -/
def ABI_ADDRESS_IDENTITY : Nat := 0x04

/-- Address of the keccak256 precompile
(`compiler_common::ABI_ADDRESS_KECCAK256`; stand-in value). -/
def ABI_ADDRESS_KECCAK256 : Nat := 0x10

/-- Address of the create precompile
(`compiler_common::ABI_ADDRESS_CREATE`; stand-in value). -/
def ABI_ADDRESS_CREATE : Nat := 0x11

/-- Stands for `keccak256(compiler_common::ABI_STORAGE_DEPLOYED_CONTRACTS_COUNTER)`,
the storage key of the per-module deployment counter.  The hashing crate is
external; the claims only need that the load and the store of the counter use
this same key. -/
def DEPLOYED_CONTRACTS_COUNTER_POSITION : Nat := 0xA1

/-- Stands for the `keccak256` digest of the error message used by the
value-transfer guard (the message literal lives in the missing `src/evm/mod.rs`;
no claim depends on the digits). -/
def CHECK_VALUE_ZERO_ERROR_HASH : Nat := 0xB2

/-- The semantic domain is 256-bit machine words. -/
def W : Nat := 2 ^ BITLENGTH_FIELD

/-- The four logical memory regions of `context/address_space.rs`
(spec section 3): local stack, heap, parent-call memory, child-call memory. -/
inductive AddressSpace where
  | stack
  | heap
  | parent
  | child
deriving DecidableEq, Repr

/-- The intrinsic operations of `context/function/intrinsic.rs`, as used by the
translator sources: storage access, far/static calls, context switching and the
memory-copy flavours. -/
inductive Intrinsic where
  | storageLoad
  | storageStore
  | farCall
  | staticCall
  | switchContext
  | memoryCopy
  | memoryCopyToChild
  | memoryCopyFromChild
  | memoryCopyToParent
  | memoryCopyFromParent
  | getFromContext
deriving DecidableEq, Repr

/-- A call target: a resolved intrinsic or a named runtime function such as
`__cxa_throw`. -/
inductive Callee where
  | intrinsic (operation : Intrinsic)
  | runtime (name : String)
deriving DecidableEq, Repr

/-- Deep-embedded LLVM values.  Builder arithmetic is pure value construction;
`load` and `callResult` are the values returned by `build_load` and
`build_call`. -/
inductive Value where
  | const (value : Nat)
  | argument (index : Nat)
  | alloca (identifier : Nat)
  | intAdd (lhs rhs : Value)
  | intSub (lhs rhs : Value)
  | intMul (lhs rhs : Value)
  | intAnd (lhs rhs : Value)
  | intOr (lhs rhs : Value)
  | shl (lhs rhs : Value)
  | icmpEq (lhs rhs : Value)
  | load (space : AddressSpace) (offset : Value)
  | callResult (callee : Callee) (args : List Value)

/-- A typed pointer: an address-space tag plus an integer offset, the result of
`Context::access_memory` (an `int_to_ptr` cast) or of `build_alloca`. -/
structure Pointer where
  space : AddressSpace
  offset : Value

/-- Deep-embedded IR instructions, as appended by the `Context` builders.
Alignments are recorded on memory instructions, matching the
`set_alignment`/`set_alignment_attribute` calls of the source. -/
inductive Instruction where
  | store (pointer : Pointer) (value : Value) (alignment : Nat)
  | load (pointer : Pointer) (alignment : Nat)
  | allocate (identifier : Nat) (alignment : Nat)
  | condBr (condition : Value) (thenBlock elseBlock : Nat)
  | br (destination : Nat)
  | ret (value : Option Value)
  | unreachable
  | call (callee : Callee) (args : List Value)
  | memcpy (intrinsic : Intrinsic) (destination source : Pointer) (size : Value)
      (destinationAlignment sourceAlignment : Nat)

/-- Whether an instruction is an LLVM block terminator. -/
def Instruction.isTerminator : Instruction → Bool
  | .condBr _ _ _ => true
  | .br _ => true
  | .ret _ => true
  | .unreachable => true
  | _ => false

/-- Whether an instruction is a conditional branch. -/
def Instruction.isCondBr : Instruction → Bool
  | .condBr _ _ _ => true
  | _ => false

/-- Mirrors `BasicBlock::get_terminator().is_some()`: LLVM reports a terminator
exactly when the block's last instruction is one. -/
def hasTerminator : List Instruction → Bool
  | [] => false
  | [instruction] => instruction.isTerminator
  | _ :: rest => hasTerminator rest

/-- The per-function record of `context/function/mod.rs`: the name and the four
fixed control blocks assigned at creation time. -/
structure Function where
  name : String
  entry_block : Nat
  throw_block : Nat
  catch_block : Nat
  return_block : Nat

/-- The dependency-manager capability of the `Dependency` trait in `lib.rs`:
`compile(name, parent_name, ..) -> code hash` and
`resolve_library(path) -> address`, both fallible.  Optimization levels and
dump flags do not affect any claim and are omitted from the capability. -/
structure DependencyManager where
  compile : String → String → Except String String
  resolveLibrary : String → Except String String

/-- The generation context of `context/mod.rs`: basic blocks (a total map from
block ids, with `blockCount` the next fresh id), the builder cursor
`insertBlock`, the current function, the module name, the dependency-manager
handle, plus two observation channels: `compileCalls` logs every dependency
compilation and `trace` logs every appended instruction in emission order. -/
structure Context where
  blocks : Nat → List Instruction
  blockCount : Nat
  insertBlock : Nat
  function : Function
  moduleName : String
  dependencyManager : Option DependencyManager
  compileCalls : List String
  allocaCount : Nat
  trace : List Instruction

/-- The block under the builder cursor. -/
def Context.currentBlock (ctx : Context) : List Instruction :=
  ctx.blocks ctx.insertBlock

/-- Appends one instruction to the block under the cursor and to the global
emission trace. -/
def Context.emit (ctx : Context) (instruction : Instruction) : Context :=
  { ctx with
      blocks := fun block =>
        if block = ctx.insertBlock then ctx.currentBlock ++ [instruction]
        else ctx.blocks block,
      trace := ctx.trace ++ [instruction] }

/-- Mirrors `Context::append_basic_block`: a fresh empty block in the current
function; returns the new block id. -/
def Context.append_basic_block (ctx : Context) (_name : String) : Context × Nat :=
  ({ ctx with blockCount := ctx.blockCount + 1 }, ctx.blockCount)

/-- Mirrors `Context::set_basic_block`: repositions the builder cursor. -/
def Context.set_basic_block (ctx : Context) (block : Nat) : Context :=
  { ctx with insertBlock := block }

/-- Mirrors `Context::field_const`: a constant of the native word type. -/
def field_const (value : Nat) : Value :=
  Value.const value

/-- Digits of a hexadecimal literal (`inkwell::types::StringRadix::Hexadecimal`). -/
def hexDigit (character : Char) : Nat :=
  if character.isDigit then character.toNat - 48
  else if "a".front ≤ character ∧ character ≤ "f".front then character.toNat - 87
  else if "A".front ≤ character ∧ character ≤ "F".front then character.toNat - 55
  else 0

/-- Numeric value of a hexadecimal string.  The source panics on malformed
digits (a fatal-tier error per spec section 7); no claim exercises malformed
literals and stray characters default to zero here. -/
def hexToNat (value : String) : Nat :=
  value.foldl (fun accumulator character => accumulator * 16 + hexDigit character) 0

/-- Mirrors `Context::field_const_str_hex`: a word constant parsed from a
hexadecimal string, truncated to the word width as LLVM does. -/
def field_const_str_hex (value : String) : Value :=
  Value.const
    (hexToNat (if value.startsWith "0x" then value.drop 2 else value) % W)

/-- Mirrors `Context::field_const_str`: strips an optional `0x` and parses as
hexadecimal. -/
def field_const_str (value : String) : Value :=
  field_const_str_hex value

/-- Mirrors `Context::access_memory`: converts an integer offset into a typed
pointer tagged with the given address space (an `int_to_ptr` cast, pure at the
value level). -/
def Context.access_memory (_ctx : Context) (offset : Value) (space : AddressSpace)
    (_name : String) : Pointer :=
  { space := space, offset := offset }

/-- Mirrors `Context::build_alloca`: a stack allocation forced to word
alignment; returns the fresh stack pointer. -/
def Context.build_alloca (ctx : Context) (_name : String) : Context × Pointer :=
  ({ ctx with allocaCount := ctx.allocaCount + 1 }.emit
      (.allocate ctx.allocaCount SIZE_FIELD),
    { space := .stack, offset := .alloca ctx.allocaCount })

/-- Mirrors `Context::build_store`: the alignment is the word size for the
Stack address space and one byte for the other three. -/
def Context.build_store (ctx : Context) (pointer : Pointer) (value : Value) : Context :=
  let alignment := if AddressSpace.stack = pointer.space then SIZE_FIELD else 1
  ctx.emit (.store pointer value alignment)

/-- Mirrors `Context::build_load`: same alignment rule as `build_store`;
returns the loaded value. -/
def Context.build_load (ctx : Context) (pointer : Pointer) (_name : String) :
    Context × Value :=
  let alignment := if AddressSpace.stack = pointer.space then SIZE_FIELD else 1
  (ctx.emit (.load pointer alignment), .load pointer.space pointer.offset)

/-- Mirrors `Context::build_conditional_branch`: a no-op if the current block
already ends in a terminator. -/
def Context.build_conditional_branch (ctx : Context) (comparison : Value)
    (then_block else_block : Nat) : Context :=
  if hasTerminator ctx.currentBlock then ctx
  else ctx.emit (.condBr comparison then_block else_block)

/-- Mirrors `Context::build_unconditional_branch`: a no-op if the current block
already ends in a terminator. -/
def Context.build_unconditional_branch (ctx : Context) (destination_block : Nat) :
    Context :=
  if hasTerminator ctx.currentBlock then ctx
  else ctx.emit (.br destination_block)

/-- Mirrors `Context::build_return`: a no-op if the current block already ends
in a terminator. -/
def Context.build_return (ctx : Context) (value : Option Value) : Context :=
  if hasTerminator ctx.currentBlock then ctx
  else ctx.emit (.ret value)

/-- Mirrors `Context::build_unreachable`: a no-op if the current block already
ends in a terminator. -/
def Context.build_unreachable (ctx : Context) : Context :=
  if hasTerminator ctx.currentBlock then ctx
  else ctx.emit (.unreachable)

/-- Mirrors `Context::build_call`: appends the call and returns its result
value.  The pointer-alignment attributes the source attaches to call sites are
not observed by any claim and are not recorded. -/
def Context.build_call (ctx : Context) (callee : Callee) (args : List Value)
    (_name : String) : Context × Value :=
  (ctx.emit (.call callee args), .callResult callee args)

/-- Mirrors `Context::build_memcpy`: a copy through the designated intrinsic
with one-byte alignment on both pointer operands. -/
def Context.build_memcpy (ctx : Context) (intrinsic : Intrinsic)
    (destination source : Pointer) (size : Value) (_name : String) : Context :=
  ctx.emit (.memcpy intrinsic destination source size 1 1)

/-- Mirrors `Context::read_header`: loads the header word at the base of the
given memory region. -/
def Context.read_header (ctx : Context) (space : AddressSpace) : Context × Value :=
  let header_pointer := ctx.access_memory
    (field_const (ABI_MEMORY_OFFSET_HEADER * SIZE_FIELD)) space "header_pointer"
  ctx.build_load header_pointer "header_value"

/-- Mirrors `Context::write_header`: stores the header word at the base of the
given memory region. -/
def Context.write_header (ctx : Context) (header : Value) (space : AddressSpace) :
    Context :=
  let header_pointer := ctx.access_memory
    (field_const (ABI_MEMORY_OFFSET_HEADER * SIZE_FIELD)) space "header_pointer"
  ctx.build_store header_pointer header

/-- Mirrors `Context::write_error`.  The source hashes the message string with
the external `compiler_common::keccak256` and parses the 64-digit hex digest
with `field_const_str`; `errorHash` here is that digest's numeric value, so
every genuine instance satisfies `errorHash < W`.  A 4-byte length goes into
the Parent header, then the digest left-shifted by `8 * (32 - 4) = 224` bits
goes into the Parent data word. -/
def Context.write_error (ctx : Context) (errorHash : Nat) : Context :=
  let ctx := ctx.write_header (field_const SIZE_X32) .parent
  let error_code := Value.const errorHash
  let error_code_shifted := Value.shl error_code
    (field_const (BITLENGTH_BYTE * (SIZE_FIELD - SIZE_X32)))
  let parent_error_code_pointer := ctx.access_memory
    (field_const (ABI_MEMORY_OFFSET_DATA * SIZE_FIELD)) .parent
    "parent_error_code_pointer"
  ctx.build_store parent_error_code_pointer error_code_shifted

/-- Mirrors `Context::compile_dependency`: without a configured manager the
result is the recoverable error naming the unset manager (an `anyhow` error in
the source, not a panic); with a manager, the underlying `compile` outcome is
propagated.  A successful compilation is logged in `compileCalls`. -/
def Context.compile_dependency (ctx : Context) (name : String) :
    Except String (Context × String) :=
  match ctx.dependencyManager with
  | none => .error "The dependency manager is unset"
  | some manager =>
      match manager.compile name ctx.moduleName with
      | .error message => .error message
      | .ok hash =>
          .ok ({ ctx with compileCalls := ctx.compileCalls ++ [name] }, hash)

/-- Mirrors `Context::resolve_library`: without a configured manager the result
is the recoverable error naming the unset manager; with a manager, a failure of
the underlying `resolve_library` is propagated and a success becomes a word
constant.  The source takes `&self` and emits nothing. -/
def Context.resolve_library (ctx : Context) (path : String) : Except String Value :=
  match ctx.dependencyManager with
  | none => .error "The dependency manager is unset"
  | some manager =>
      match manager.resolveLibrary path with
      | .error message => .error message
      | .ok address => .ok (field_const_str address)

/-- A valuation for deep-embedded values: the contents of the four memories,
the opaque translator operands, the results of calls and the numeric identity
of stack slots. -/
structure Env where
  mem : AddressSpace → Nat → Nat
  argv : Nat → Nat
  calls : Callee → List Nat → Nat
  allocaVal : Nat → Nat

mutual

/-- Evaluates a value tree over 256-bit machine words under a valuation. -/
def Value.eval (env : Env) : Value → Nat
  | .const value => value % W
  | .argument index => env.argv index % W
  | .alloca identifier => env.allocaVal identifier % W
  | .intAdd lhs rhs => (Value.eval env lhs + Value.eval env rhs) % W
  | .intSub lhs rhs => (Value.eval env lhs + (W - Value.eval env rhs)) % W
  | .intMul lhs rhs => (Value.eval env lhs * Value.eval env rhs) % W
  | .intAnd lhs rhs => Nat.land (Value.eval env lhs) (Value.eval env rhs)
  | .intOr lhs rhs => Nat.lor (Value.eval env lhs) (Value.eval env rhs)
  | .shl lhs rhs => (Value.eval env lhs <<< Value.eval env rhs) % W
  | .icmpEq lhs rhs => if Value.eval env lhs = Value.eval env rhs then 1 else 0
  | .load space offset => env.mem space (Value.eval env offset) % W
  | .callResult callee args => env.calls callee (Value.evalList env args) % W

/-- Evaluates a list of value trees. -/
def Value.evalList (env : Env) : List Value → List Nat
  | [] => []
  | value :: rest => Value.eval env value :: Value.evalList env rest

end

/-- Modelled from the spec: the `Context::long_return_offset` helper called by
`src/evm/return.rs` is not among the source files.  Spec section 6 fixes "a
long-return flag word at a reserved offset within Heap memory", and the catch
and throw builders in `context/mod.rs` address the same flag at
`ABI_MEMORY_OFFSET_LONG_RETURN * SIZE_FIELD`. -/
def Context.long_return_offset (_ctx : Context) : Value :=
  field_const (ABI_MEMORY_OFFSET_LONG_RETURN * SIZE_FIELD)

/-- Whether a function name is one of the three reserved outermost names, the
condition tested by `long_return` in `src/evm/return.rs`. -/
def isReservedName (name : String) : Bool :=
  name == LLVM_FUNCTION_ENTRY || name == LLVM_FUNCTION_CONSTRUCTOR
    || name == LLVM_FUNCTION_SELECTOR

/-- Mirrors `long_return` in `src/evm/return.rs`: inside an outermost function,
branch to the return block; inside any other function, store 1 to the
long-return flag word in Heap memory and branch to the throw block. -/
def long_return (ctx : Context) (function : Function) : Context :=
  if isReservedName ctx.function.name then
    ctx.build_unconditional_branch function.return_block
  else
    let long_return_flag_pointer := ctx.access_memory ctx.long_return_offset
      .heap "long_return_flag_pointer"
    let ctx := ctx.build_store long_return_flag_pointer (field_const 1)
    ctx.build_unconditional_branch function.throw_block

/-- Mirrors `r#return` in `src/evm/return.rs`. -/
def evm_return (ctx : Context) (argument0 argument1 : Value) :
    Context × Option Value :=
  let function := ctx.function
  let source := ctx.access_memory argument0 .heap "return_source_pointer"
  let destination := ctx.access_memory
    (field_const (ABI_MEMORY_OFFSET_DATA * SIZE_FIELD)) .parent
    "return_destination_pointer"
  let size := argument1
  let ctx := ctx.write_header size .parent
  let ctx := ctx.build_memcpy .memoryCopyToParent destination source size
    "return_memcpy_to_parent"
  let ctx := long_return ctx function
  (ctx, none)

/-- Mirrors `revert` in `src/evm/return.rs`. -/
def evm_revert (ctx : Context) (argument0 argument1 : Value) :
    Context × Option Value :=
  let function := ctx.function
  let source := ctx.access_memory argument0 .heap "revert_source_pointer"
  let destination := ctx.access_memory
    (field_const (ABI_MEMORY_OFFSET_DATA * SIZE_FIELD)) .parent
    "revert_destination_pointer"
  let size := argument1
  let ctx := ctx.write_header size .parent
  let ctx := ctx.build_memcpy .memoryCopyToParent destination source size
    "revert_memcpy_to_parent"
  let ctx := ctx.build_unconditional_branch function.throw_block
  (ctx, none)

/-- Mirrors `stop` in `src/evm/return.rs`. -/
def evm_stop (ctx : Context) : Context × Option Value :=
  let function := ctx.function
  let ctx := ctx.write_header (field_const 0) .parent
  let ctx := long_return ctx function
  (ctx, none)

/-- Mirrors `invalid` in `src/evm/return.rs`. -/
def evm_invalid (ctx : Context) : Context × Option Value :=
  let function := ctx.function
  let ctx := ctx.write_header (field_const 0) .parent
  let ctx := ctx.build_unconditional_branch function.throw_block
  (ctx, none)

/-- Mirrors `load` in `src/evm/storage.rs`: delegates to the storage-load
intrinsic with the caller-supplied position and the external-storage flag fixed
to zero. -/
def storage_load (ctx : Context) (position : Value) : Context × Option Value :=
  let is_external_storage := field_const 0
  let (ctx, value) := ctx.build_call (.intrinsic .storageLoad)
    [position, is_external_storage] "storage_load"
  (ctx, some value)

/-- Mirrors `store` in `src/evm/storage.rs`: delegates to the storage-store
intrinsic with the value, the caller-supplied position and the external-storage
flag fixed to zero. -/
def storage_store (ctx : Context) (position value : Value) : Context × Option Value :=
  let is_external_storage := field_const 0
  let (ctx, _) := ctx.build_call (.intrinsic .storageStore)
    [value, position, is_external_storage] "storage_store"
  (ctx, none)

/-- Mirrors `size` in `src/evm/calldata.rs`: masks the low 32 bits of the
Parent header. -/
def calldata_size (ctx : Context) : Context × Option Value :=
  let (ctx, header) := ctx.read_header .parent
  let value := Value.intAnd header (field_const 0x00000000ffffffff)
  (ctx, some value)

/-- Modelled from the spec: `check_value_zero` lives in the missing
`src/evm/mod.rs`.  Per spec sections 4.3 and 7, a zero-value precondition check
is emitted when a transfer value operand is present: non-zero value transfers
are rejected via an emitted conditional abort, a property of the generated
program.  The check compares the value with zero, branches to a continuation
block on zero and to an abort block otherwise; the abort block writes the error
code of the guard's message to the parent and branches to the function's throw
block; emission continues in the continuation block. -/
def check_value_zero (ctx : Context) (value : Value) : Context :=
  let (ctx, value_zero_block) := ctx.append_basic_block "value_zero_block"
  let (ctx, value_non_zero_block) := ctx.append_basic_block "value_non_zero_block"
  let is_value_zero := Value.icmpEq value (field_const 0)
  let ctx := ctx.build_conditional_branch is_value_zero value_zero_block
    value_non_zero_block
  let ctx := ctx.set_basic_block value_non_zero_block
  let ctx := ctx.write_error CHECK_VALUE_ZERO_ERROR_HASH
  let ctx := ctx.build_unconditional_branch ctx.function.throw_block
  ctx.set_basic_block value_zero_block

/-- Mirrors `call_identity` in `src/evm/contract.rs`: a Heap-to-Heap copy
through the plain memory-copy intrinsic, succeeding with constant 1. -/
def call_identity (ctx : Context) (destination source size : Value) :
    Context × Value :=
  let destination := ctx.access_memory destination .heap
    "contract_call_identity_destination"
  let source := ctx.access_memory source .heap "contract_call_identity_source"
  let ctx := ctx.build_memcpy .memoryCopy destination source size
    "contract_call_memcpy_to_child"
  (ctx, field_const 1)

/-- Mirrors `call_ordinary` in `src/evm/contract.rs`: switch context, write the
Child header with the input length, copy the input into the Child data region,
invoke the requested call intrinsic with the address packed into the high bits
of the call-definition word, then copy the Child output back into Heap. -/
def call_ordinary (ctx : Context) (call_type : Intrinsic) (address : Value)
    (input_offset input_size output_offset output_size : Value) :
    Context × Value :=
  let (ctx, _) := ctx.build_call (.intrinsic .switchContext) []
    "contract_call_switch_context"
  let child_pointer_header := ctx.access_memory
    (field_const (ABI_MEMORY_OFFSET_HEADER * SIZE_FIELD)) .child
    "contract_call_child_pointer_header"
  let ctx := ctx.build_store child_pointer_header input_size
  let destination := ctx.access_memory
    (field_const (ABI_MEMORY_OFFSET_DATA * SIZE_FIELD)) .child
    "contract_call_child_input_destination"
  let source := ctx.access_memory input_offset .heap
    "contract_call_child_input_source"
  let ctx := ctx.build_memcpy .memoryCopyToChild destination source input_size
    "contract_call_memcpy_to_child"
  let call_definition := Value.shl address (field_const BITLENGTH_X32)
  let (ctx, is_call_successful) := ctx.build_call (.intrinsic call_type)
    [call_definition] "contract_call_external"
  let source := ctx.access_memory
    (field_const (ABI_MEMORY_OFFSET_DATA * SIZE_FIELD)) .child
    "contract_call_output_source"
  let destination := ctx.access_memory output_offset .heap
    "contract_call_output_pointer"
  let ctx := ctx.build_memcpy .memoryCopyFromChild destination source output_size
    "contract_call_memcpy_from_child"
  (ctx, is_call_successful)

/-- Mirrors `call` in `src/evm/contract.rs`: with a present transfer-value
operand the zero-value guard is emitted first; then the translator branches on
whether the address is the identity precompile, runs the identity copy or the
ordinary external-call protocol, and joins on a stack result slot. -/
def contract_call (ctx : Context) (call_type : Intrinsic) (address : Value)
    (value : Option Value)
    (input_offset input_size output_offset output_size : Value) :
    Context × Option Value :=
  let ctx := match value with
    | some value => check_value_zero ctx value
    | none => ctx
  let (ctx, identity_block) := ctx.append_basic_block "contract_call_identity_block"
  let (ctx, ordinary_block) := ctx.append_basic_block "contract_call_ordinary_block"
  let (ctx, join_block) := ctx.append_basic_block "contract_call_join_block"
  let (ctx, result_pointer) := ctx.build_alloca "contract_call_result_pointer"
  let ctx := ctx.build_store result_pointer (field_const 0)
  let is_address_identity := Value.icmpEq address (field_const ABI_ADDRESS_IDENTITY)
  let ctx := ctx.build_conditional_branch is_address_identity identity_block
    ordinary_block
  let ctx := ctx.set_basic_block identity_block
  let (ctx, result) := call_identity ctx output_offset input_offset output_size
  let ctx := ctx.build_store result_pointer result
  let ctx := ctx.build_unconditional_branch join_block
  let ctx := ctx.set_basic_block ordinary_block
  let (ctx, result) := call_ordinary ctx call_type address input_offset input_size
    output_offset output_size
  let ctx := ctx.build_store result_pointer result
  let ctx := ctx.build_unconditional_branch join_block
  let ctx := ctx.set_basic_block join_block
  let (ctx, result) := ctx.build_load result_pointer "contract_call_result"
  (ctx, some result)

/-- Mirrors `call_keccak256_salt` in `src/evm/create.rs`: hashes the
constructor arguments, the deployment counter and the optional caller salt via
the keccak256 precompile in the Child memory. -/
def call_keccak256_salt (ctx : Context)
    (constructor_input_offset constructor_input_size counter_value : Value)
    (salt : Option Value) : Context × Value :=
  let (ctx, _) := ctx.build_call (.intrinsic .switchContext) []
    "salt_keccak256_switch_context"
  let input_size := Value.intAdd constructor_input_size (field_const SIZE_FIELD)
  let input_size := match salt with
    | some _ => Value.intAdd input_size (field_const SIZE_FIELD)
    | none => input_size
  let child_pointer_header := ctx.access_memory
    (field_const (ABI_MEMORY_OFFSET_HEADER * SIZE_FIELD)) .child
    "salt_keccak256_child_pointer_header"
  let ctx := ctx.build_store child_pointer_header input_size
  let child_offset_data := field_const (ABI_MEMORY_OFFSET_DATA * SIZE_FIELD)
  let child_pointer_data := ctx.access_memory child_offset_data .child
    "salt_keccak256_child_pointer_data"
  let constructor_input_pointer := ctx.access_memory constructor_input_offset
    .heap "salt_keccak256_heap_pointer_constructor_data"
  let ctx := ctx.build_memcpy .memoryCopyToChild child_pointer_data
    constructor_input_pointer constructor_input_size "salt_keccak256_memcpy_to_child"
  let child_offset_counter := Value.intAdd child_offset_data constructor_input_size
  let child_pointer_counter := ctx.access_memory child_offset_counter .child
    "salt_keccak256_child_pointer_counter"
  let ctx := ctx.build_store child_pointer_counter counter_value
  let ctx := match salt with
    | some salt =>
        let child_offset_salt := Value.intAdd child_offset_counter
          (field_const SIZE_FIELD)
        let child_pointer_salt := ctx.access_memory child_offset_salt .child
          "salt_keccak256_child_pointer_salt"
        ctx.build_store child_pointer_salt salt
    | none => ctx
  let call_definition := Value.shl (field_const ABI_ADDRESS_KECCAK256)
    (field_const BITLENGTH_X32)
  let (ctx, _) := ctx.build_call (.intrinsic .staticCall) [call_definition]
    "salt_keccak256_call_external"
  ctx.build_load child_pointer_data "salt_keccak256_result"

/-- Mirrors `call_address_precompile` in `src/evm/create.rs`: passes the code
hash and the salt to the create precompile, which returns the deterministic
deployment address. -/
def call_address_precompile (ctx : Context) (hash salt : Value) : Context × Value :=
  let (ctx, _) := ctx.build_call (.intrinsic .switchContext) []
    "create_precompile_switch_context"
  let child_pointer_header := ctx.access_memory
    (field_const (ABI_MEMORY_OFFSET_HEADER * SIZE_FIELD)) .child
    "create_precompile_child_pointer_header"
  let input_size := field_const (SIZE_FIELD * 2)
  let ctx := ctx.build_store child_pointer_header input_size
  let child_offset_data := field_const (ABI_MEMORY_OFFSET_DATA * SIZE_FIELD)
  let child_pointer_data := ctx.access_memory child_offset_data .child
    "create_precompile_child_pointer_hash"
  let ctx := ctx.build_store child_pointer_data hash
  let child_offset_salt := Value.intAdd child_offset_data (field_const SIZE_FIELD)
  let child_pointer_salt := ctx.access_memory child_offset_salt .child
    "create_precompile_child_pointer_salt"
  let ctx := ctx.build_store child_pointer_salt salt
  let call_definition := Value.shl (field_const ABI_ADDRESS_CREATE)
    (field_const BITLENGTH_X32)
  let (ctx, _) := ctx.build_call (.intrinsic .farCall) [call_definition]
    "create_precompile_call_external"
  ctx.build_load child_pointer_data "create_precompile_result"

/-- Mirrors `call_constructor` in `src/evm/create.rs`: far-calls the
constructor of the newly deployed contract, returning the success flag. -/
def call_constructor (ctx : Context) (address : Value)
    (constructor_input_offset constructor_input_size : Value) : Context × Value :=
  let (ctx, _) := ctx.build_call (.intrinsic .switchContext) []
    "create_switch_context"
  let child_header_data := Value.intOr constructor_input_size
    (field_const_str "00000000000000010000000000000000")
  let child_pointer_header := ctx.access_memory
    (field_const (ABI_MEMORY_OFFSET_HEADER * SIZE_FIELD)) .child
    "create_child_pointer_header"
  let ctx := ctx.build_store child_pointer_header child_header_data
  let destination := ctx.access_memory
    (field_const (ABI_MEMORY_OFFSET_DATA * SIZE_FIELD)) .child
    "create_child_input_destination"
  let source := ctx.access_memory constructor_input_offset .heap
    "create_child_input_source"
  let ctx := ctx.build_memcpy .memoryCopyToChild destination source
    constructor_input_size "create_memcpy_to_child"
  let call_definition := Value.shl address (field_const BITLENGTH_X32)
  ctx.build_call (.intrinsic .farCall) [call_definition] "create_call"

/-- Mirrors `create2` in `src/evm/create.rs`: value guard, code-hash load,
counter load, salt hashing, address precompile, constructor far call, counter
increment and store, and the success-flag multiplication of the address. -/
def create2 (ctx : Context) (value input_offset input_size : Value)
    (salt : Option Value) : Context × Option Value :=
  let ctx := check_value_zero ctx value
  let hash_pointer := ctx.access_memory input_offset .heap "create_hash_pointer"
  let (ctx, hash) := ctx.build_load hash_pointer "create_hash_value"
  let constructor_input_offset := Value.intAdd input_offset (field_const SIZE_FIELD)
  let constructor_input_size := Value.intSub input_size (field_const SIZE_FIELD)
  let counter_value_key := Value.const DEPLOYED_CONTRACTS_COUNTER_POSITION
  let (ctx, counter_value) := ctx.build_call (.intrinsic .storageLoad)
    [counter_value_key, field_const 0] "create_counter_load"
  let (ctx, salt_value) := call_keccak256_salt ctx constructor_input_offset
    constructor_input_size counter_value salt
  let (ctx, address) := call_address_precompile ctx hash salt_value
  let (ctx, is_call_successful) := call_constructor ctx address
    constructor_input_offset constructor_input_size
  let counter_value_incremented := Value.intAdd counter_value (field_const 1)
  let (ctx, _) := ctx.build_call (.intrinsic .storageStore)
    [counter_value_incremented, counter_value_key, field_const 0]
    "create_counter_store"
  let address := Value.intMul address is_call_successful
  (ctx, some address)

/-- Mirrors `create` in `src/evm/create.rs`: `create2` without a salt. -/
def create (ctx : Context) (value input_offset input_size : Value) :
    Context × Option Value :=
  create2 ctx value input_offset input_size none

/-- Mirrors Rust `str::ends_with`, phrased on the character list so that it
evaluates inside the kernel (the library `String.endsWith` is equivalent but
its byte-offset loop does not reduce). -/
def string_ends_with (value suffix : String) : Bool :=
  List.isSuffixOf suffix.data value.data

/-- Mirrors `contract_hash` in `src/evm/create.rs`: identifiers ending in
`_deployed` or equal to the current module name yield the constant 0 without
touching the dependency manager; any other identifier is compiled as a
dependency and its code hash becomes a word constant. -/
def contract_hash (ctx : Context) (identifier : String) :
    Except String (Context × Option Value) :=
  let parent := ctx.moduleName
  if string_ends_with identifier "_deployed" || identifier == parent then
    .ok (ctx, some (field_const 0))
  else
    match ctx.compile_dependency identifier with
    | .error message => .error message
    | .ok (ctx, hash) => .ok (ctx, some (field_const_str hash))

/-- Mirrors `contract_hash_size` in `src/evm/create.rs`: the same identifier
test, yielding 0 on the special identifiers and the word size otherwise,
without touching the dependency manager in either case. -/
def contract_hash_size (ctx : Context) (identifier : String) :
    Except String (Context × Option Value) :=
  let parent := ctx.moduleName
  if string_ends_with identifier "_deployed" || identifier == parent then
    .ok (ctx, some (field_const 0))
  else
    .ok (ctx, some (field_const SIZE_FIELD))

/-! Helper lemmas about the emission primitives. -/

theorem trace_emit (ctx : Context) (instruction : Instruction) :
    (ctx.emit instruction).trace = ctx.trace ++ [instruction] := rfl

theorem insertBlock_emit (ctx : Context) (instruction : Instruction) :
    (ctx.emit instruction).insertBlock = ctx.insertBlock := rfl

theorem function_emit (ctx : Context) (instruction : Instruction) :
    (ctx.emit instruction).function = ctx.function := rfl

theorem blockCount_emit (ctx : Context) (instruction : Instruction) :
    (ctx.emit instruction).blockCount = ctx.blockCount := rfl

theorem currentBlock_emit (ctx : Context) (instruction : Instruction) :
    (ctx.emit instruction).currentBlock = ctx.currentBlock ++ [instruction] := by
  simp [Context.emit, Context.currentBlock]

theorem hasTerminator_append_cons (block : List Instruction)
    (instruction : Instruction) (rest : List Instruction) :
    hasTerminator (block ++ instruction :: rest) =
      hasTerminator (instruction :: rest) := by
  induction block with
  | nil => rfl
  | cons head tail ih =>
      cases tail with
      | nil => simp [hasTerminator]
      | cons second tail2 => simpa [hasTerminator] using ih

/-! Claim theorems. -/

/-- C1: for every emission of the `return` or `stop` opcode translator, when
the current function's name is one of the three reserved outermost names the
current block is ended with an unconditional branch to the function's return
block; for every other current function the translator instead stores the
constant 1 to the long-return flag word in Heap memory and ends the current
block with an unconditional branch to the function's throw block.  The leading
instructions are the Parent header write (and, for `return`, the payload copy)
of the source. -/
theorem c1_return_stop_long_return_protocol (ctx : Context)
    (argument0 argument1 : Value) :
    (evm_return ctx argument0 argument1).1.trace =
        ctx.trace
          ++ [Instruction.store
                ⟨AddressSpace.parent, field_const (ABI_MEMORY_OFFSET_HEADER * SIZE_FIELD)⟩
                argument1 1,
              Instruction.memcpy .memoryCopyToParent
                ⟨AddressSpace.parent, field_const (ABI_MEMORY_OFFSET_DATA * SIZE_FIELD)⟩
                ⟨AddressSpace.heap, argument0⟩ argument1 1 1]
          ++ (if isReservedName ctx.function.name then
                [Instruction.br ctx.function.return_block]
              else
                [Instruction.store
                   ⟨AddressSpace.heap,
                     field_const (ABI_MEMORY_OFFSET_LONG_RETURN * SIZE_FIELD)⟩
                   (field_const 1) 1,
                 Instruction.br ctx.function.throw_block])
      ∧ (evm_return ctx argument0 argument1).1.currentBlock =
        ctx.currentBlock
          ++ [Instruction.store
                ⟨AddressSpace.parent, field_const (ABI_MEMORY_OFFSET_HEADER * SIZE_FIELD)⟩
                argument1 1,
              Instruction.memcpy .memoryCopyToParent
                ⟨AddressSpace.parent, field_const (ABI_MEMORY_OFFSET_DATA * SIZE_FIELD)⟩
                ⟨AddressSpace.heap, argument0⟩ argument1 1 1]
          ++ (if isReservedName ctx.function.name then
                [Instruction.br ctx.function.return_block]
              else
                [Instruction.store
                   ⟨AddressSpace.heap,
                     field_const (ABI_MEMORY_OFFSET_LONG_RETURN * SIZE_FIELD)⟩
                   (field_const 1) 1,
                 Instruction.br ctx.function.throw_block])
      ∧ (evm_return ctx argument0 argument1).1.insertBlock = ctx.insertBlock
      ∧ (evm_stop ctx).1.trace =
        ctx.trace
          ++ [Instruction.store
                ⟨AddressSpace.parent, field_const (ABI_MEMORY_OFFSET_HEADER * SIZE_FIELD)⟩
                (field_const 0) 1]
          ++ (if isReservedName ctx.function.name then
                [Instruction.br ctx.function.return_block]
              else
                [Instruction.store
                   ⟨AddressSpace.heap,
                     field_const (ABI_MEMORY_OFFSET_LONG_RETURN * SIZE_FIELD)⟩
                   (field_const 1) 1,
                 Instruction.br ctx.function.throw_block])
      ∧ (evm_stop ctx).1.currentBlock =
        ctx.currentBlock
          ++ [Instruction.store
                ⟨AddressSpace.parent, field_const (ABI_MEMORY_OFFSET_HEADER * SIZE_FIELD)⟩
                (field_const 0) 1]
          ++ (if isReservedName ctx.function.name then
                [Instruction.br ctx.function.return_block]
              else
                [Instruction.store
                   ⟨AddressSpace.heap,
                     field_const (ABI_MEMORY_OFFSET_LONG_RETURN * SIZE_FIELD)⟩
                   (field_const 1) 1,
                 Instruction.br ctx.function.throw_block])
      ∧ (evm_stop ctx).1.insertBlock = ctx.insertBlock := by
  by_cases h : isReservedName ctx.function.name <;>
    simp [h, evm_return, evm_stop, long_return, Context.write_header,
      Context.build_store, Context.build_memcpy, Context.build_unconditional_branch,
      Context.access_memory, Context.long_return_offset, field_const, trace_emit,
      currentBlock_emit, insertBlock_emit, function_emit, hasTerminator_append_cons,
      hasTerminator, Instruction.isTerminator]

/-- A call to one of the three terminator builders named by claim C2. -/
inductive TerminatorOp where
  | unconditionalBranch (destination : Nat)
  | functionReturn (value : Option Value)
  | unreachableOp

/-- Runs one terminator-builder call on the context. -/
def applyTerminatorOp (op : TerminatorOp) (ctx : Context) : Context :=
  match op with
  | .unconditionalBranch destination => ctx.build_unconditional_branch destination
  | .functionReturn value => ctx.build_return value
  | .unreachableOp => ctx.build_unreachable

/-- Runs a sequence of terminator-builder calls on the context. -/
def applyTerminatorOps : List TerminatorOp → Context → Context
  | [], ctx => ctx
  | op :: rest, ctx => applyTerminatorOps rest (applyTerminatorOp op ctx)

theorem applyTerminatorOp_of_hasTerminator (op : TerminatorOp) (ctx : Context)
    (h : hasTerminator ctx.currentBlock = true) : applyTerminatorOp op ctx = ctx := by
  cases op <;>
    simp [applyTerminatorOp, Context.build_unconditional_branch,
      Context.build_return, Context.build_unreachable, h]

/-- C2: on a basic block that already ends in a terminator, every sequence of
subsequent `build_unconditional_branch`, `build_return` and
`build_unreachable` calls appends no instruction and leaves the whole context
(in particular the block) unchanged, so the block retains only its first
terminator. -/
theorem c2_terminator_builders_idempotent (ctx : Context) (ops : List TerminatorOp)
    (hterminated : hasTerminator ctx.currentBlock = true) :
    applyTerminatorOps ops ctx = ctx := by
  induction ops with
  | nil => rfl
  | cons op rest ih =>
      show applyTerminatorOps rest (applyTerminatorOp op ctx) = ctx
      rw [applyTerminatorOp_of_hasTerminator op ctx hterminated, ih]

/-- A throwaway inner (non-reserved) function record for concrete runs. -/
def sampleFunction : Function :=
  { name := "inner_helper", entry_block := 0, throw_block := 1,
    catch_block := 2, return_block := 3 }

/-- A concrete context positioned at an empty entry block. -/
def sampleContext : Context :=
  { blocks := fun _ => [], blockCount := 4, insertBlock := 0,
    function := sampleFunction, moduleName := "module_a",
    dependencyManager := none, compileCalls := [], allocaCount := 0, trace := [] }

/-- The sample context with its current block already ended by a branch. -/
def terminatedContext : Context :=
  { sampleContext with blocks := fun _ => [Instruction.br 3] }

theorem c2_terminator_builders_idempotent_witness :
    hasTerminator terminatedContext.currentBlock = true ∧
      applyTerminatorOps
        [.functionReturn none, .unconditionalBranch 5, .unreachableOp]
        terminatedContext = terminatedContext :=
  ⟨rfl, c2_terminator_builders_idempotent terminatedContext
    [.functionReturn none, .unconditionalBranch 5, .unreachableOp] rfl⟩

/-- C3: every instruction emitted by `build_store` or `build_load` carries the
word-size alignment (32 bytes) when the pointer's address space is Stack and a
1-byte alignment when it is Heap, Parent or Child, for every context, hence
regardless of the order or number of prior calls. -/
theorem c3_load_store_alignment (ctx : Context) (offset value : Value)
    (name : String) :
    (ctx.build_store ⟨.stack, offset⟩ value).trace =
        ctx.trace ++ [Instruction.store ⟨.stack, offset⟩ value SIZE_FIELD]
      ∧ (ctx.build_store ⟨.heap, offset⟩ value).trace =
        ctx.trace ++ [Instruction.store ⟨.heap, offset⟩ value 1]
      ∧ (ctx.build_store ⟨.parent, offset⟩ value).trace =
        ctx.trace ++ [Instruction.store ⟨.parent, offset⟩ value 1]
      ∧ (ctx.build_store ⟨.child, offset⟩ value).trace =
        ctx.trace ++ [Instruction.store ⟨.child, offset⟩ value 1]
      ∧ (ctx.build_load ⟨.stack, offset⟩ name).1.trace =
        ctx.trace ++ [Instruction.load ⟨.stack, offset⟩ SIZE_FIELD]
      ∧ (ctx.build_load ⟨.heap, offset⟩ name).1.trace =
        ctx.trace ++ [Instruction.load ⟨.heap, offset⟩ 1]
      ∧ (ctx.build_load ⟨.parent, offset⟩ name).1.trace =
        ctx.trace ++ [Instruction.load ⟨.parent, offset⟩ 1]
      ∧ (ctx.build_load ⟨.child, offset⟩ name).1.trace =
        ctx.trace ++ [Instruction.load ⟨.child, offset⟩ 1] := by
  simp [Context.build_store, Context.build_load, trace_emit]

/-- The valuation with all memories, operands and call results zero. -/
def zeroEnv : Env :=
  { mem := fun _ _ => 0, argv := fun _ => 0, calls := fun _ _ => 0,
    allocaVal := fun _ => 0 }

/-- Published keccak-256 digest of the empty byte string, the standard test
vector: a genuine value of `compiler_common::keccak256` for the empty message,
whose first and last four bytes differ. -/
def KECCAK256_EMPTY_STRING : Nat :=
  0xc5d2460186f7233c927e7db2dcc703c0e500b653ca82273b7bfad8045d85a470

/-- C4, counterexample: `write_error` called with the digest of the empty
message stores into the Parent data word the digest left-shifted by 224 bits,
whose value keeps only the digest's lowest 4 bytes; this differs from the
claim's error code, the first 4 bytes of the digest left-shifted into the high
bytes of the word. -/
theorem c4_write_error_counterexample :
    (sampleContext.write_error KECCAK256_EMPTY_STRING).trace =
        [Instruction.store
            ⟨.parent, field_const (ABI_MEMORY_OFFSET_HEADER * SIZE_FIELD)⟩
            (field_const SIZE_X32) 1,
          Instruction.store
            ⟨.parent, field_const (ABI_MEMORY_OFFSET_DATA * SIZE_FIELD)⟩
            (Value.shl (Value.const KECCAK256_EMPTY_STRING)
              (field_const (BITLENGTH_BYTE * (SIZE_FIELD - SIZE_X32)))) 1]
      ∧ Value.eval zeroEnv
          (Value.shl (Value.const KECCAK256_EMPTY_STRING)
            (field_const (BITLENGTH_BYTE * (SIZE_FIELD - SIZE_X32)))) ≠
        (KECCAK256_EMPTY_STRING / 2 ^ (BITLENGTH_FIELD - BITLENGTH_X32))
          * 2 ^ (BITLENGTH_FIELD - BITLENGTH_X32) :=
  ⟨rfl, by decide⟩

/-- C4, amended: for every message, `write_error` first stores the constant 4
(a 4-byte length) into the Parent header word, and then stores into the Parent
data word an error code equal to the last 4 bytes (the lowest-order 32 bits)
of the keccak256 hash of the message, left-shifted into the high bytes of a
full machine word.  `errorHash` is the digest of the message, hence below the
word bound. -/
theorem c4_write_error_amended (ctx : Context) (errorHash : Nat) (env : Env)
    (h : errorHash < W) :
    (ctx.write_error errorHash).trace =
        ctx.trace
          ++ [Instruction.store
                ⟨.parent, field_const (ABI_MEMORY_OFFSET_HEADER * SIZE_FIELD)⟩
                (field_const SIZE_X32) 1,
              Instruction.store
                ⟨.parent, field_const (ABI_MEMORY_OFFSET_DATA * SIZE_FIELD)⟩
                (Value.shl (Value.const errorHash)
                  (field_const (BITLENGTH_BYTE * (SIZE_FIELD - SIZE_X32)))) 1]
      ∧ Value.eval env
          (Value.shl (Value.const errorHash)
            (field_const (BITLENGTH_BYTE * (SIZE_FIELD - SIZE_X32)))) =
        (errorHash % 2 ^ BITLENGTH_X32)
          * 2 ^ (BITLENGTH_FIELD - BITLENGTH_X32) := by
  constructor
  · simp [Context.write_error, Context.write_header, Context.build_store,
      Context.access_memory, field_const, trace_emit]
  · show ((errorHash % W) <<< ((BITLENGTH_BYTE * (SIZE_FIELD - SIZE_X32)) % W)) % W =
        errorHash % 2 ^ BITLENGTH_X32 * 2 ^ (BITLENGTH_FIELD - BITLENGTH_X32)
    have h224 : BITLENGTH_BYTE * (SIZE_FIELD - SIZE_X32) % W = 224 := by
      norm_num [W, BITLENGTH_BYTE, SIZE_FIELD, SIZE_X32, BITLENGTH_FIELD]
    have hx : (2 : Nat) ^ BITLENGTH_X32 = 2 ^ 32 := by norm_num [BITLENGTH_X32]
    have hy : (2 : Nat) ^ (BITLENGTH_FIELD - BITLENGTH_X32) = 2 ^ 224 := by
      norm_num [BITLENGTH_FIELD, BITLENGTH_X32]
    rw [h224, Nat.mod_eq_of_lt h, Nat.shiftLeft_eq, hx, hy]
    have hw : W = 2 ^ 32 * 2 ^ 224 := by norm_num [W, BITLENGTH_FIELD]
    rw [hw, Nat.mul_mod_mul_right]

theorem c4_write_error_amended_witness :
    KECCAK256_EMPTY_STRING < W ∧
      ((sampleContext.write_error KECCAK256_EMPTY_STRING).trace =
          sampleContext.trace
            ++ [Instruction.store
                  ⟨.parent, field_const (ABI_MEMORY_OFFSET_HEADER * SIZE_FIELD)⟩
                  (field_const SIZE_X32) 1,
                Instruction.store
                  ⟨.parent, field_const (ABI_MEMORY_OFFSET_DATA * SIZE_FIELD)⟩
                  (Value.shl (Value.const KECCAK256_EMPTY_STRING)
                    (field_const (BITLENGTH_BYTE * (SIZE_FIELD - SIZE_X32)))) 1]
        ∧ Value.eval zeroEnv
            (Value.shl (Value.const KECCAK256_EMPTY_STRING)
              (field_const (BITLENGTH_BYTE * (SIZE_FIELD - SIZE_X32)))) =
          (KECCAK256_EMPTY_STRING % 2 ^ BITLENGTH_X32)
            * 2 ^ (BITLENGTH_FIELD - BITLENGTH_X32)) :=
  ⟨by decide,
    c4_write_error_amended sampleContext KECCAK256_EMPTY_STRING zeroEnv (by decide)⟩

/-- Shared helper: the complete emission trace of `create2`, for a context
whose current block is not yet terminated. -/
theorem create2_trace_eq (ctx : Context)
    (value input_offset input_size : Value) (salt : Option Value)
    (h : hasTerminator ctx.currentBlock = false) :
    (create2 ctx value input_offset input_size salt).1.trace =
        ctx.trace
          ++ [Instruction.condBr (Value.icmpEq value (Value.const 0))
                ctx.blockCount (ctx.blockCount + 1),
              Instruction.store
                ⟨.parent, Value.const (ABI_MEMORY_OFFSET_HEADER * SIZE_FIELD)⟩
                (Value.const SIZE_X32) 1,
              Instruction.store
                ⟨.parent, Value.const (ABI_MEMORY_OFFSET_DATA * SIZE_FIELD)⟩
                (Value.shl (Value.const CHECK_VALUE_ZERO_ERROR_HASH)
                  (Value.const (BITLENGTH_BYTE * (SIZE_FIELD - SIZE_X32)))) 1,
              Instruction.br ctx.function.throw_block]
          ++ ([Instruction.load ⟨.heap, input_offset⟩ 1,
              Instruction.call (.intrinsic .storageLoad)
                [Value.const DEPLOYED_CONTRACTS_COUNTER_POSITION, Value.const 0],
              Instruction.call (.intrinsic .switchContext) [],
              Instruction.store
                ⟨.child, Value.const (ABI_MEMORY_OFFSET_HEADER * SIZE_FIELD)⟩
                (match salt with
                  | some _ => Value.intAdd
                      (Value.intAdd
                        (Value.intSub input_size (Value.const SIZE_FIELD))
                        (Value.const SIZE_FIELD))
                      (Value.const SIZE_FIELD)
                  | none => Value.intAdd
                      (Value.intSub input_size (Value.const SIZE_FIELD))
                      (Value.const SIZE_FIELD)) 1,
              Instruction.memcpy .memoryCopyToChild
                ⟨.child, Value.const (ABI_MEMORY_OFFSET_DATA * SIZE_FIELD)⟩
                ⟨.heap, Value.intAdd input_offset (Value.const SIZE_FIELD)⟩
                (Value.intSub input_size (Value.const SIZE_FIELD)) 1 1,
              Instruction.store
                ⟨.child, Value.intAdd
                   (Value.const (ABI_MEMORY_OFFSET_DATA * SIZE_FIELD))
                   (Value.intSub input_size (Value.const SIZE_FIELD))⟩
                (Value.callResult (.intrinsic .storageLoad)
                  [Value.const DEPLOYED_CONTRACTS_COUNTER_POSITION, Value.const 0]) 1]
            ++ (match salt with
                | some saltValue =>
                    [Instruction.store
                      ⟨.child, Value.intAdd
                         (Value.intAdd
                           (Value.const (ABI_MEMORY_OFFSET_DATA * SIZE_FIELD))
                           (Value.intSub input_size (Value.const SIZE_FIELD)))
                         (Value.const SIZE_FIELD)⟩
                      saltValue 1]
                | none => [])
            ++ [Instruction.call (.intrinsic .staticCall)
                [Value.shl (Value.const ABI_ADDRESS_KECCAK256)
                  (Value.const BITLENGTH_X32)],
              Instruction.load
                ⟨.child, Value.const (ABI_MEMORY_OFFSET_DATA * SIZE_FIELD)⟩ 1,
              Instruction.call (.intrinsic .switchContext) [],
              Instruction.store
                ⟨.child, Value.const (ABI_MEMORY_OFFSET_HEADER * SIZE_FIELD)⟩
                (Value.const (SIZE_FIELD * 2)) 1,
              Instruction.store
                ⟨.child, Value.const (ABI_MEMORY_OFFSET_DATA * SIZE_FIELD)⟩
                (Value.load .heap input_offset) 1,
              Instruction.store
                ⟨.child, Value.intAdd
                   (Value.const (ABI_MEMORY_OFFSET_DATA * SIZE_FIELD))
                   (Value.const SIZE_FIELD)⟩
                (Value.load .child (Value.const (ABI_MEMORY_OFFSET_DATA * SIZE_FIELD))) 1,
              Instruction.call (.intrinsic .farCall)
                [Value.shl (Value.const ABI_ADDRESS_CREATE)
                  (Value.const BITLENGTH_X32)],
              Instruction.load
                ⟨.child, Value.const (ABI_MEMORY_OFFSET_DATA * SIZE_FIELD)⟩ 1,
              Instruction.call (.intrinsic .switchContext) [],
              Instruction.store
                ⟨.child, Value.const (ABI_MEMORY_OFFSET_HEADER * SIZE_FIELD)⟩
                (Value.intOr (Value.intSub input_size (Value.const SIZE_FIELD))
                  (field_const_str "00000000000000010000000000000000")) 1,
              Instruction.memcpy .memoryCopyToChild
                ⟨.child, Value.const (ABI_MEMORY_OFFSET_DATA * SIZE_FIELD)⟩
                ⟨.heap, Value.intAdd input_offset (Value.const SIZE_FIELD)⟩
                (Value.intSub input_size (Value.const SIZE_FIELD)) 1 1,
              Instruction.call (.intrinsic .farCall)
                [Value.shl
                  (Value.load .child (Value.const (ABI_MEMORY_OFFSET_DATA * SIZE_FIELD)))
                  (Value.const BITLENGTH_X32)],
              Instruction.call (.intrinsic .storageStore)
                [Value.intAdd
                  (Value.callResult (.intrinsic .storageLoad)
                    [Value.const DEPLOYED_CONTRACTS_COUNTER_POSITION, Value.const 0])
                  (Value.const 1),
                 Value.const DEPLOYED_CONTRACTS_COUNTER_POSITION, Value.const 0]]) := by
  simp only [Context.currentBlock] at h
  cases salt <;>
    simp [create2, check_value_zero, call_keccak256_salt, call_address_precompile,
      call_constructor, Context.write_error, Context.write_header,
      Context.build_store, Context.build_load, Context.build_call,
      Context.build_memcpy, Context.build_conditional_branch,
      Context.build_unconditional_branch, Context.access_memory,
      Context.append_basic_block, Context.set_basic_block, field_const,
      Context.emit, Context.currentBlock, hasTerminator_append_cons,
      hasTerminator, Instruction.isTerminator, h]

/-- Shared helper: the result value of `create2` is the loaded address times
the constructor call's success flag. -/
theorem create2_result_eq (ctx : Context)
    (value input_offset input_size : Value) (salt : Option Value) :
    (create2 ctx value input_offset input_size salt).2 =
      some (Value.intMul
        (Value.load .child (Value.const (ABI_MEMORY_OFFSET_DATA * SIZE_FIELD)))
        (Value.callResult (.intrinsic .farCall)
          [Value.shl
            (Value.load .child (Value.const (ABI_MEMORY_OFFSET_DATA * SIZE_FIELD)))
            (Value.const BITLENGTH_X32)])) := by
  cases salt <;>
    simp [create2, check_value_zero, call_keccak256_salt, call_address_precompile,
      call_constructor, Context.write_error, Context.write_header,
      Context.build_store, Context.build_load, Context.build_call,
      Context.build_memcpy, Context.build_conditional_branch,
      Context.build_unconditional_branch, Context.access_memory,
      Context.append_basic_block, Context.set_basic_block, field_const,
      Context.emit, Context.currentBlock, hasTerminator_append_cons,
      hasTerminator, Instruction.isTerminator]

/-- C5: for every emission of `create`/`create2` (into a not-yet-terminated
block), the deployment counter at the storage slot keyed by the hash of the
deployed-contracts-counter name is loaded (the storage-load call) before the
address-precompile and constructor calls in the emitted sequence, the value
stored back is the loaded counter plus exactly 1, and the storage-store is the
last emitted call, after the constructor far call; the sequence after the
value guard is straight-line (the explicit trace below contains terminators
only inside the guard), so the counter store lies on the success path and the
failure path alike, and the returned value is the address loaded after the
address-precompile call multiplied by the constructor call's success flag,
with no branch on the result.  `create` is `create2` without a salt. -/
theorem c5_create2_counter_and_result (ctx : Context)
    (value input_offset input_size : Value) (salt : Option Value)
    (h : hasTerminator ctx.currentBlock = false) :
    (create2 ctx value input_offset input_size salt).2 =
        some (Value.intMul
          (Value.load .child (Value.const (ABI_MEMORY_OFFSET_DATA * SIZE_FIELD)))
          (Value.callResult (.intrinsic .farCall)
            [Value.shl
              (Value.load .child (Value.const (ABI_MEMORY_OFFSET_DATA * SIZE_FIELD)))
              (Value.const BITLENGTH_X32)]))
      ∧ (create2 ctx value input_offset input_size salt).1.trace =
        ctx.trace
          ++ [Instruction.condBr (Value.icmpEq value (Value.const 0))
                ctx.blockCount (ctx.blockCount + 1),
              Instruction.store
                ⟨.parent, Value.const (ABI_MEMORY_OFFSET_HEADER * SIZE_FIELD)⟩
                (Value.const SIZE_X32) 1,
              Instruction.store
                ⟨.parent, Value.const (ABI_MEMORY_OFFSET_DATA * SIZE_FIELD)⟩
                (Value.shl (Value.const CHECK_VALUE_ZERO_ERROR_HASH)
                  (Value.const (BITLENGTH_BYTE * (SIZE_FIELD - SIZE_X32)))) 1,
              Instruction.br ctx.function.throw_block]
          ++ ([Instruction.load ⟨.heap, input_offset⟩ 1,
              Instruction.call (.intrinsic .storageLoad)
                [Value.const DEPLOYED_CONTRACTS_COUNTER_POSITION, Value.const 0],
              Instruction.call (.intrinsic .switchContext) [],
              Instruction.store
                ⟨.child, Value.const (ABI_MEMORY_OFFSET_HEADER * SIZE_FIELD)⟩
                (match salt with
                  | some _ => Value.intAdd
                      (Value.intAdd
                        (Value.intSub input_size (Value.const SIZE_FIELD))
                        (Value.const SIZE_FIELD))
                      (Value.const SIZE_FIELD)
                  | none => Value.intAdd
                      (Value.intSub input_size (Value.const SIZE_FIELD))
                      (Value.const SIZE_FIELD)) 1,
              Instruction.memcpy .memoryCopyToChild
                ⟨.child, Value.const (ABI_MEMORY_OFFSET_DATA * SIZE_FIELD)⟩
                ⟨.heap, Value.intAdd input_offset (Value.const SIZE_FIELD)⟩
                (Value.intSub input_size (Value.const SIZE_FIELD)) 1 1,
              Instruction.store
                ⟨.child, Value.intAdd
                   (Value.const (ABI_MEMORY_OFFSET_DATA * SIZE_FIELD))
                   (Value.intSub input_size (Value.const SIZE_FIELD))⟩
                (Value.callResult (.intrinsic .storageLoad)
                  [Value.const DEPLOYED_CONTRACTS_COUNTER_POSITION, Value.const 0]) 1]
            ++ (match salt with
                | some saltValue =>
                    [Instruction.store
                      ⟨.child, Value.intAdd
                         (Value.intAdd
                           (Value.const (ABI_MEMORY_OFFSET_DATA * SIZE_FIELD))
                           (Value.intSub input_size (Value.const SIZE_FIELD)))
                         (Value.const SIZE_FIELD)⟩
                      saltValue 1]
                | none => [])
            ++ [Instruction.call (.intrinsic .staticCall)
                [Value.shl (Value.const ABI_ADDRESS_KECCAK256)
                  (Value.const BITLENGTH_X32)],
              Instruction.load
                ⟨.child, Value.const (ABI_MEMORY_OFFSET_DATA * SIZE_FIELD)⟩ 1,
              Instruction.call (.intrinsic .switchContext) [],
              Instruction.store
                ⟨.child, Value.const (ABI_MEMORY_OFFSET_HEADER * SIZE_FIELD)⟩
                (Value.const (SIZE_FIELD * 2)) 1,
              Instruction.store
                ⟨.child, Value.const (ABI_MEMORY_OFFSET_DATA * SIZE_FIELD)⟩
                (Value.load .heap input_offset) 1,
              Instruction.store
                ⟨.child, Value.intAdd
                   (Value.const (ABI_MEMORY_OFFSET_DATA * SIZE_FIELD))
                   (Value.const SIZE_FIELD)⟩
                (Value.load .child (Value.const (ABI_MEMORY_OFFSET_DATA * SIZE_FIELD))) 1,
              Instruction.call (.intrinsic .farCall)
                [Value.shl (Value.const ABI_ADDRESS_CREATE)
                  (Value.const BITLENGTH_X32)],
              Instruction.load
                ⟨.child, Value.const (ABI_MEMORY_OFFSET_DATA * SIZE_FIELD)⟩ 1,
              Instruction.call (.intrinsic .switchContext) [],
              Instruction.store
                ⟨.child, Value.const (ABI_MEMORY_OFFSET_HEADER * SIZE_FIELD)⟩
                (Value.intOr (Value.intSub input_size (Value.const SIZE_FIELD))
                  (field_const_str "00000000000000010000000000000000")) 1,
              Instruction.memcpy .memoryCopyToChild
                ⟨.child, Value.const (ABI_MEMORY_OFFSET_DATA * SIZE_FIELD)⟩
                ⟨.heap, Value.intAdd input_offset (Value.const SIZE_FIELD)⟩
                (Value.intSub input_size (Value.const SIZE_FIELD)) 1 1,
              Instruction.call (.intrinsic .farCall)
                [Value.shl
                  (Value.load .child (Value.const (ABI_MEMORY_OFFSET_DATA * SIZE_FIELD)))
                  (Value.const BITLENGTH_X32)],
              Instruction.call (.intrinsic .storageStore)
                [Value.intAdd
                  (Value.callResult (.intrinsic .storageLoad)
                    [Value.const DEPLOYED_CONTRACTS_COUNTER_POSITION, Value.const 0])
                  (Value.const 1),
                 Value.const DEPLOYED_CONTRACTS_COUNTER_POSITION, Value.const 0]])
      ∧ create ctx value input_offset input_size =
        create2 ctx value input_offset input_size none :=
  ⟨create2_result_eq ctx value input_offset input_size salt,
    create2_trace_eq ctx value input_offset input_size salt h, rfl⟩

theorem c5_create2_counter_and_result_witness :
    hasTerminator sampleContext.currentBlock = false ∧
      (create2 sampleContext (.argument 0) (.argument 1) (.argument 2)
          (some (.argument 3))).2 =
        some (Value.intMul
          (Value.load .child (Value.const (ABI_MEMORY_OFFSET_DATA * SIZE_FIELD)))
          (Value.callResult (.intrinsic .farCall)
            [Value.shl
              (Value.load .child (Value.const (ABI_MEMORY_OFFSET_DATA * SIZE_FIELD)))
              (Value.const BITLENGTH_X32)])) :=
  ⟨rfl, (c5_create2_counter_and_result sampleContext (.argument 0) (.argument 1)
    (.argument 2) (some (.argument 3)) rfl).1⟩

/-- C6: in every invocation of the contract-call translator with a present
transfer-value operand, the emitted sequence opens with the zero-value check (a
conditional branch on the value compared with zero), whose abort target is the
second freshly appended block, filled with the error write and a branch to the
function's throw block; the check precedes (in emission order, and as the
terminator of the dominating block) the conditional branch selecting between
the identity and the ordinary call path.  The abort edge is the one selected
whenever the value evaluates to non-zero.  Every invocation of
`create`/`create2` emits the same zero-value check as a prefix of its sequence,
with the same abort block. -/
theorem c6_value_transfer_guard (ctx : Context) (call_type : Intrinsic)
    (address value input_offset input_size output_offset output_size : Value)
    (salt : Option Value) (env : Env)
    (h : hasTerminator ctx.currentBlock = false)
    (hins : ctx.insertBlock < ctx.blockCount)
    (hfresh : ∀ block, ctx.blockCount ≤ block → ctx.blocks block = [])
    (hv : Value.eval env value ≠ 0) :
    (contract_call ctx call_type address (some value) input_offset input_size
        output_offset output_size).1.trace =
        ctx.trace
          ++ [Instruction.condBr (Value.icmpEq value (Value.const 0))
                ctx.blockCount (ctx.blockCount + 1),
              Instruction.store
                ⟨.parent, Value.const (ABI_MEMORY_OFFSET_HEADER * SIZE_FIELD)⟩
                (Value.const SIZE_X32) 1,
              Instruction.store
                ⟨.parent, Value.const (ABI_MEMORY_OFFSET_DATA * SIZE_FIELD)⟩
                (Value.shl (Value.const CHECK_VALUE_ZERO_ERROR_HASH)
                  (Value.const (BITLENGTH_BYTE * (SIZE_FIELD - SIZE_X32)))) 1,
              Instruction.br ctx.function.throw_block,
              Instruction.allocate ctx.allocaCount SIZE_FIELD,
              Instruction.store ⟨.stack, Value.alloca ctx.allocaCount⟩
                (Value.const 0) SIZE_FIELD,
              Instruction.condBr
                (Value.icmpEq address (Value.const ABI_ADDRESS_IDENTITY))
                (ctx.blockCount + 2) (ctx.blockCount + 3),
              Instruction.memcpy .memoryCopy ⟨.heap, output_offset⟩
                ⟨.heap, input_offset⟩ output_size 1 1,
              Instruction.store ⟨.stack, Value.alloca ctx.allocaCount⟩
                (Value.const 1) SIZE_FIELD,
              Instruction.br (ctx.blockCount + 4),
              Instruction.call (.intrinsic .switchContext) [],
              Instruction.store
                ⟨.child, Value.const (ABI_MEMORY_OFFSET_HEADER * SIZE_FIELD)⟩
                input_size 1,
              Instruction.memcpy .memoryCopyToChild
                ⟨.child, Value.const (ABI_MEMORY_OFFSET_DATA * SIZE_FIELD)⟩
                ⟨.heap, input_offset⟩ input_size 1 1,
              Instruction.call (.intrinsic call_type)
                [Value.shl address (Value.const BITLENGTH_X32)],
              Instruction.memcpy .memoryCopyFromChild ⟨.heap, output_offset⟩
                ⟨.child, Value.const (ABI_MEMORY_OFFSET_DATA * SIZE_FIELD)⟩
                output_size 1 1,
              Instruction.store ⟨.stack, Value.alloca ctx.allocaCount⟩
                (Value.callResult (.intrinsic call_type)
                  [Value.shl address (Value.const BITLENGTH_X32)]) SIZE_FIELD,
              Instruction.br (ctx.blockCount + 4),
              Instruction.load ⟨.stack, Value.alloca ctx.allocaCount⟩ SIZE_FIELD]
      ∧ (contract_call ctx call_type address (some value) input_offset input_size
          output_offset output_size).2 =
        some (Value.load .stack (Value.alloca ctx.allocaCount))
      ∧ (contract_call ctx call_type address (some value) input_offset input_size
          output_offset output_size).1.blocks (ctx.blockCount + 1) =
        [Instruction.store
            ⟨.parent, Value.const (ABI_MEMORY_OFFSET_HEADER * SIZE_FIELD)⟩
            (Value.const SIZE_X32) 1,
          Instruction.store
            ⟨.parent, Value.const (ABI_MEMORY_OFFSET_DATA * SIZE_FIELD)⟩
            (Value.shl (Value.const CHECK_VALUE_ZERO_ERROR_HASH)
              (Value.const (BITLENGTH_BYTE * (SIZE_FIELD - SIZE_X32)))) 1,
          Instruction.br ctx.function.throw_block]
      ∧ Value.eval env (Value.icmpEq value (Value.const 0)) = 0
      ∧ (∃ rest,
          (create2 ctx value input_offset input_size salt).1.trace =
            ctx.trace
              ++ [Instruction.condBr (Value.icmpEq value (Value.const 0))
                    ctx.blockCount (ctx.blockCount + 1),
                  Instruction.store
                    ⟨.parent, Value.const (ABI_MEMORY_OFFSET_HEADER * SIZE_FIELD)⟩
                    (Value.const SIZE_X32) 1,
                  Instruction.store
                    ⟨.parent, Value.const (ABI_MEMORY_OFFSET_DATA * SIZE_FIELD)⟩
                    (Value.shl (Value.const CHECK_VALUE_ZERO_ERROR_HASH)
                      (Value.const (BITLENGTH_BYTE * (SIZE_FIELD - SIZE_X32)))) 1,
                  Instruction.br ctx.function.throw_block]
              ++ rest)
      ∧ (create2 ctx value input_offset input_size salt).1.blocks
          (ctx.blockCount + 1) =
        [Instruction.store
            ⟨.parent, Value.const (ABI_MEMORY_OFFSET_HEADER * SIZE_FIELD)⟩
            (Value.const SIZE_X32) 1,
          Instruction.store
            ⟨.parent, Value.const (ABI_MEMORY_OFFSET_DATA * SIZE_FIELD)⟩
            (Value.shl (Value.const CHECK_VALUE_ZERO_ERROR_HASH)
              (Value.const (BITLENGTH_BYTE * (SIZE_FIELD - SIZE_X32)))) 1,
          Instruction.br ctx.function.throw_block] := by
  have hU := h
  simp only [Context.currentBlock] at hU
  have hne1 : ¬(ctx.blockCount + 1 = ctx.insertBlock) := by omega
  have hne2 : ¬(ctx.blockCount + 1 = ctx.blockCount) := by omega
  have hne3 : ¬(ctx.blockCount + 1 = ctx.blockCount + 2) := by omega
  have hne4 : ¬(ctx.blockCount + 1 = ctx.blockCount + 3) := by omega
  have hne5 : ¬(ctx.blockCount + 1 = ctx.blockCount + 4) := by omega
  have hb1 : ctx.blocks (ctx.blockCount + 1) = [] := hfresh _ (by omega)
  have heval : Value.eval env (Value.icmpEq value (Value.const 0)) = 0 := by
    simp [Value.eval, hv]
  refine ⟨?_, ?_, ?_, heval,
    ⟨_, create2_trace_eq ctx value input_offset input_size salt h⟩, ?_⟩
  · simp [contract_call, check_value_zero, call_identity, call_ordinary,
      Context.write_error, Context.write_header, Context.build_store,
      Context.build_load, Context.build_call, Context.build_memcpy,
      Context.build_alloca, Context.build_conditional_branch,
      Context.build_unconditional_branch, Context.access_memory,
      Context.append_basic_block, Context.set_basic_block, field_const,
      Context.emit, Context.currentBlock, hasTerminator_append_cons,
      hasTerminator, Instruction.isTerminator, hU]
  · simp [contract_call, check_value_zero, call_identity, call_ordinary,
      Context.write_error, Context.write_header, Context.build_store,
      Context.build_load, Context.build_call, Context.build_memcpy,
      Context.build_alloca, Context.build_conditional_branch,
      Context.build_unconditional_branch, Context.access_memory,
      Context.append_basic_block, Context.set_basic_block, field_const,
      Context.emit, Context.currentBlock, hasTerminator_append_cons,
      hasTerminator, Instruction.isTerminator, hU]
  · simp [contract_call, check_value_zero, call_identity, call_ordinary,
      Context.write_error, Context.write_header, Context.build_store,
      Context.build_load, Context.build_call, Context.build_memcpy,
      Context.build_alloca, Context.build_conditional_branch,
      Context.build_unconditional_branch, Context.access_memory,
      Context.append_basic_block, Context.set_basic_block, field_const,
      Context.emit, Context.currentBlock, hasTerminator_append_cons,
      hasTerminator, Instruction.isTerminator, hU, hne1, hne2, hne3, hne4,
      hne5, hb1]
  · cases salt <;>
      simp [create2, check_value_zero, call_keccak256_salt,
        call_address_precompile, call_constructor, Context.write_error,
        Context.write_header, Context.build_store, Context.build_load,
        Context.build_call, Context.build_memcpy,
        Context.build_conditional_branch, Context.build_unconditional_branch,
        Context.access_memory, Context.append_basic_block,
        Context.set_basic_block, field_const, Context.emit,
        Context.currentBlock, hasTerminator_append_cons, hasTerminator,
        Instruction.isTerminator, hU, hne1, hne2, hb1]

theorem c6_value_transfer_guard_witness :
    hasTerminator sampleContext.currentBlock = false
      ∧ sampleContext.insertBlock < sampleContext.blockCount
      ∧ Value.eval zeroEnv (Value.const 7) ≠ 0
      ∧ (contract_call sampleContext .farCall (.argument 0) (some (.const 7))
          (.argument 1) (.argument 2) (.argument 3) (.argument 4)).2 =
        some (Value.load .stack (Value.alloca 0)) :=
  ⟨rfl, by decide, by decide,
    (c6_value_transfer_guard sampleContext .farCall (.argument 0) (.const 7)
      (.argument 1) (.argument 2) (.argument 3) (.argument 4) none zeroEnv rfl
      (by decide) (fun _ _ => rfl) (by decide)).2.1⟩

/-- The valuation whose Parent header word holds the given value and whose
other cells, operands and call results are zero. -/
def headerEnv (headerValue : Nat) : Env :=
  { mem := fun space offset =>
      if space = AddressSpace.parent ∧ offset = ABI_MEMORY_OFFSET_HEADER * SIZE_FIELD
      then headerValue else 0,
    argv := fun _ => 0, calls := fun _ _ => 0, allocaVal := fun _ => 0 }

/-- C7: every emission of `calldata_size` loads the Parent header word and
returns it bitwise-ANDed with the mask `0x00000000ffffffff`: under every
valuation the produced value evaluates to the Parent header word (reduced to
the machine width) masked to its low 32 bits; in particular a Parent header
word of 5 yields the value 5. -/
theorem c7_calldata_size_mask (ctx : Context) (env : Env) :
    (calldata_size ctx).2 =
        some (Value.intAnd
          (Value.load .parent (Value.const (ABI_MEMORY_OFFSET_HEADER * SIZE_FIELD)))
          (Value.const 0x00000000ffffffff))
      ∧ (calldata_size ctx).1.trace =
        ctx.trace
          ++ [Instruction.load
                ⟨.parent, Value.const (ABI_MEMORY_OFFSET_HEADER * SIZE_FIELD)⟩ 1]
      ∧ Value.eval env
          (Value.intAnd
            (Value.load .parent (Value.const (ABI_MEMORY_OFFSET_HEADER * SIZE_FIELD)))
            (Value.const 0x00000000ffffffff)) =
        Nat.land
          (env.mem .parent (ABI_MEMORY_OFFSET_HEADER * SIZE_FIELD % W) % W)
          0x00000000ffffffff
      ∧ Value.eval (headerEnv 5)
          (Value.intAnd
            (Value.load .parent (Value.const (ABI_MEMORY_OFFSET_HEADER * SIZE_FIELD)))
            (Value.const 0x00000000ffffffff)) = 5 := by
  refine ⟨?_, ?_, ?_, by decide⟩
  · simp [calldata_size, Context.read_header, Context.build_load,
      Context.access_memory, field_const]
  · simp [calldata_size, Context.read_header, Context.build_load,
      Context.access_memory, field_const, trace_emit]
  · simp [Value.eval]
    norm_num [W, BITLENGTH_FIELD]

/-- C8, counterexample: emitting `storage_store(key = 7, value = 9)` followed
by `storage_load(key = 7)` produces a call to the storage-store intrinsic and a
call to the storage-load intrinsic; these are two distinct intrinsics, not two
calls to the same storage intrinsic (they do share the literal key operand 7). -/
theorem c8_storage_intrinsics_counterexample :
    (storage_load ((storage_store sampleContext (.const 7) (.const 9)).1)
        (.const 7)).1.trace =
        [Instruction.call (.intrinsic .storageStore)
          [Value.const 9, Value.const 7, Value.const 0],
         Instruction.call (.intrinsic .storageLoad)
          [Value.const 7, Value.const 0]]
      ∧ Intrinsic.storageStore ≠ Intrinsic.storageLoad :=
  ⟨rfl, by decide⟩

/-- C8, amended: emitting `storage_store(key = K, value = V)` followed by
`storage_load(key = K)` in the same function produces exactly two intrinsic
calls, one to the storage-store intrinsic and one to the storage-load
intrinsic, both carrying the same literal key operand `K` (and the
external-storage flag fixed to zero); the load returns the storage-load call's
result. -/
theorem c8_storage_store_then_load_amended (ctx : Context) (key value : Value) :
    (storage_load ((storage_store ctx key value).1) key).1.trace =
        ctx.trace
          ++ [Instruction.call (.intrinsic .storageStore)
                [value, key, Value.const 0],
              Instruction.call (.intrinsic .storageLoad)
                [key, Value.const 0]]
      ∧ (storage_load ((storage_store ctx key value).1) key).2 =
        some (Value.callResult (.intrinsic .storageLoad) [key, Value.const 0]) := by
  constructor <;>
    simp [storage_load, storage_store, Context.build_call, field_const, trace_emit]

/-- A dependency manager whose compile and resolve capabilities both fail. -/
def failingManager : DependencyManager :=
  { compile := fun _ _ => .error "dependency build failed",
    resolveLibrary := fun _ => .error "library missing" }

/-- C9: without a configured dependency manager, `compile_dependency` and
`resolve_library` both return the recoverable error naming the unset manager
(the embedding is total: no panic), and no context escapes, so nothing is
emitted; with a configured manager, a failure of the underlying compile or
resolve call is propagated verbatim as a recoverable error, and even a
successful compilation emits no instruction and touches no block. -/
theorem c9_dependency_manager_errors (ctx : Context) (manager : DependencyManager)
    (name path : String) :
    ({ctx with dependencyManager := none}).compile_dependency name =
        .error "The dependency manager is unset"
      ∧ ({ctx with dependencyManager := none}).resolve_library path =
        .error "The dependency manager is unset"
      ∧ (∀ message, manager.compile name ctx.moduleName = .error message →
          ({ctx with dependencyManager := some manager}).compile_dependency name =
            .error message)
      ∧ (∀ message, manager.resolveLibrary path = .error message →
          ({ctx with dependencyManager := some manager}).resolve_library path =
            .error message)
      ∧ (∀ ctxOut hash,
          ({ctx with dependencyManager := some manager}).compile_dependency name =
            .ok (ctxOut, hash) →
          ctxOut.trace = ctx.trace ∧ ctxOut.blocks = ctx.blocks) := by
  refine ⟨rfl, rfl, ?_, ?_, ?_⟩
  · intro message hfail
    simp [Context.compile_dependency, hfail]
  · intro message hfail
    simp [Context.resolve_library, hfail]
  · intro ctxOut hash hok
    simp only [Context.compile_dependency] at hok
    cases hcompile : manager.compile name ctx.moduleName with
    | error message => rw [hcompile] at hok; exact absurd hok (by simp)
    | ok hashOut =>
        rw [hcompile] at hok
        simp only [Except.ok.injEq, Prod.mk.injEq] at hok
        rw [← hok.1]
        exact ⟨rfl, rfl⟩

theorem c9_dependency_manager_errors_witness :
    ({sampleContext with dependencyManager := none}).compile_dependency "child" =
        .error "The dependency manager is unset"
      ∧ failingManager.compile "child" sampleContext.moduleName =
        .error "dependency build failed"
      ∧ ({sampleContext with dependencyManager := some failingManager}).compile_dependency
          "child" = .error "dependency build failed" :=
  ⟨(c9_dependency_manager_errors sampleContext failingManager "child" "lib").1,
   rfl,
   (c9_dependency_manager_errors sampleContext failingManager "child" "lib").2.2.1
     "dependency build failed" rfl⟩

theorem compile_dependency_ok_compileCalls (ctx : Context) (name : String)
    (ctxOut : Context) (hash : String)
    (h : ctx.compile_dependency name = .ok (ctxOut, hash)) :
    ctxOut.compileCalls = ctx.compileCalls ++ [name] := by
  simp only [Context.compile_dependency] at h
  split at h
  · exact absurd h (by simp)
  · split at h
    · exact absurd h (by simp)
    · simp only [Except.ok.injEq, Prod.mk.injEq] at h
      rw [← h.1]

/-- C10: for every identifier ending with `_deployed` or equal to the current
module's name, `contract_hash` and `contract_hash_size` return the constant 0
without invoking the dependency manager (the context, including the
compilation log, is returned untouched); for every other identifier,
`contract_hash` factors through the dependency compilation (whose log records
the invocation whenever it succeeds) and `contract_hash_size` returns the
word-size constant. -/
theorem c10_contract_hash_special_identifiers (ctx : Context) (identifier : String) :
    ((string_ends_with identifier "_deployed" || identifier == ctx.moduleName) = true →
        contract_hash ctx identifier = .ok (ctx, some (Value.const 0))
          ∧ contract_hash_size ctx identifier = .ok (ctx, some (Value.const 0)))
      ∧ ((string_ends_with identifier "_deployed" || identifier == ctx.moduleName) = false →
        contract_hash ctx identifier =
            Except.map (fun result => (result.1, some (field_const_str result.2)))
              (ctx.compile_dependency identifier)
          ∧ contract_hash_size ctx identifier =
            .ok (ctx, some (Value.const SIZE_FIELD))
          ∧ (∀ ctxOut resultValue,
              contract_hash ctx identifier = .ok (ctxOut, resultValue) →
                ctxOut.compileCalls = ctx.compileCalls ++ [identifier])) := by
  constructor
  · intro hyes
    constructor <;> simp [contract_hash, contract_hash_size, hyes, field_const]
  · intro hno
    refine ⟨?_, ?_, ?_⟩
    · cases hcd : ctx.compile_dependency identifier with
      | error message => simp [contract_hash, hno, hcd, Except.map]
      | ok result => simp [contract_hash, hno, hcd, Except.map]
    · simp [contract_hash_size, hno, field_const]
    · intro ctxOut resultValue hok
      simp only [contract_hash, hno, Bool.false_eq_true, if_false] at hok
      split at hok
      · exact absurd hok (by simp)
      · rename_i ctxO hashO heq
        simp only [Except.ok.injEq, Prod.mk.injEq] at hok
        rw [← hok.1]
        exact compile_dependency_ok_compileCalls ctx identifier ctxO hashO heq

theorem c10_contract_hash_special_identifiers_witness :
    (string_ends_with "child_deployed" "_deployed"
        || "child_deployed" == sampleContext.moduleName) = true
      ∧ contract_hash sampleContext "child_deployed" =
        .ok (sampleContext, some (Value.const 0))
      ∧ (string_ends_with "other_contract" "_deployed"
        || "other_contract" == sampleContext.moduleName) = false
      ∧ contract_hash_size sampleContext "other_contract" =
        .ok (sampleContext, some (Value.const SIZE_FIELD)) :=
  ⟨by decide,
    ((c10_contract_hash_special_identifiers sampleContext "child_deployed").1
      (by decide)).1,
    by decide,
    ((c10_contract_hash_special_identifiers sampleContext "other_contract").2
      (by decide)).2.1⟩

end LLVMContext
